import Mathlib

/-!
Shallow embedding of the email-automation processing engine
(`src/nodes.py` and `src/graph.py` of backend-email-automation).

External collaborators (mail provider, LLM agents) are modelled as a
record of oracle functions; each node of the LangGraph workflow becomes a
Lean function on the graph state, returning `Option` where the Python code
can raise (indexing an empty list, attribute access on `None`).  The
workflow itself is a step function on `Node × GraphState` that also emits
the external-collaborator calls performed by the step, so that temporal
claims ("no drafter call happens for this message") become statements
about the emitted event list.
-/

/-- One inbound email.  The engine only ever reads `body`; `id` keeps
distinct messages distinguishable. -/
structure Email where
  id : Nat
  body : String
  deriving DecidableEq, Repr

/-- The LangGraph state record (`GraphState` in `src/state.py`, whose
fields are fixed by `main.py`'s `initial_state` and by every access in
`src/nodes.py`). -/
structure GraphState where
  emails : List Email
  current_email : Option Email
  email_category : String
  generated_email : String
  rag_queries : List String
  retrieved_documents : String
  writer_messages : List String
  sendable : Bool
  trials : Nat
  deriving DecidableEq, Repr

/-- The initial state built in `main.py`. -/
def initial_state : GraphState :=
  { emails := []
    current_email := none
    email_category := ""
    generated_email := ""
    rag_queries := []
    retrieved_documents := ""
    writer_messages := []
    sendable := false
    trials := 0 }

/-- Outcomes of the external collaborators for one run: the provider
fetch / draft-write results and the judgment agents as pure functions. -/
structure Oracles where
  fetchResult : Except String (List Email)
  classify : String → String
  planQueries : String → List String
  ragAnswer : String → String
  writeEmail : String → List String → String
  proofread : String → String → Bool × String
  createDraftResult : Except String String

/-- The max-rewrite bound; the source hardcodes the literal `3` in
`Nodes.must_rewrite`. -/
def MAX_TRIALS : Nat := 3

/-- `EmailTools.fetch_unanswered_emails`: any provider exception is
caught and an empty list returned. -/
def fetch_unanswered_emails (r : Except String (List Email)) : List Email :=
  match r with
  | .ok emails => emails
  | .error _ => []

/-- `EmailTools.create_draft_reply`: any provider exception is caught and
`None` returned instead of the provider draft identifier. -/
def EmailTools_create_draft_reply (r : Except String String) : Option String :=
  match r with
  | .ok draftId => some draftId
  | .error _ => none

/-- `Nodes.load_new_emails`: replaces `emails` wholesale with the fetch
result (empty on fetch failure — the node also has its own try/except
returning `{"emails": []}`). -/
def load_new_emails (o : Oracles) (s : GraphState) : GraphState :=
  { s with emails := fetch_unanswered_emails o.fetchResult }

/-- `Nodes.check_new_emails`: route label for the inbox check. -/
def check_new_emails (s : GraphState) : String :=
  if s.emails.length = 0 then "empty" else "process"

/-- `Nodes.is_email_inbox_empty`: the node itself is the identity. -/
def is_email_inbox_empty (s : GraphState) : GraphState := s

/-- `Nodes.categorize_email`: reads `state["emails"][-1]` (raises
`IndexError` on an empty queue, hence `none`), invokes the classifier on
its body and records the category and the current email. -/
def categorize_email (classify : String → String) (s : GraphState) :
    Option GraphState :=
  match s.emails.getLast? with
  | none => none
  | some current =>
      some { s with
              email_category := classify current.body
              current_email := some current }

/-- `Nodes.route_email_based_on_category`: label for the category
conditional edge; any category other than `product_enquiry` and
`unrelated` falls into the final `else`. -/
def route_email_based_on_category (s : GraphState) : String :=
  if s.email_category = "product_enquiry" then "product related"
  else if s.email_category = "unrelated" then "unrelated"
  else "not product related"

/-- `Nodes.construct_rag_queries`: needs `current_email` (attribute
access on `None` raises), stores the planner's query list. -/
def construct_rag_queries (plan : String → List String) (s : GraphState) :
    Option GraphState :=
  match s.current_email with
  | none => none
  | some current => some { s with rag_queries := plan current.body }

/-- `Nodes.retrieve_from_rag`: concatenates `query + "\n" + answer +
"\n\n"` blocks over all planned queries. -/
def retrieve_from_rag (rag : String → String) (s : GraphState) : GraphState :=
  { s with retrieved_documents :=
      s.rag_queries.foldl (fun acc q => acc ++ q ++ "\n" ++ rag q ++ "\n\n") "" }

/-- `Nodes.write_draft_email`: builds the composite prompt, invokes the
writer with the prior `writer_messages` as history, increments `trials`
and appends the new draft to `writer_messages`. -/
def write_draft_email (write : String → List String → String) (s : GraphState) :
    Option GraphState :=
  match s.current_email with
  | none => none
  | some current =>
      let inputs :=
        "# **EMAIL CATEGORY:** " ++ s.email_category ++ "\n\n" ++
        "# **EMAIL CONTENT:**\n" ++ current.body ++ "\n\n" ++
        "# **INFORMATION:**\n" ++ s.retrieved_documents
      let email := write inputs s.writer_messages
      let trials := s.trials + 1
      some { s with
              generated_email := email
              trials := trials
              writer_messages :=
                s.writer_messages ++ ["**Draft " ++ toString trials ++ ":**\n" ++ email] }

/-- `Nodes.verify_generated_email`: invokes the proofreader on the
original body and the generated draft, records `sendable` and appends the
feedback to `writer_messages`. -/
def verify_generated_email (proofread : String → String → Bool × String)
    (s : GraphState) : Option GraphState :=
  match s.current_email with
  | none => none
  | some current =>
      let review := proofread current.body s.generated_email
      some { s with
              sendable := review.1
              writer_messages :=
                s.writer_messages ++ ["**Proofreader Feedback:**\n" ++ review.2] }

/-- `Nodes.must_rewrite`: the verification router.  It returns a route
label AND mutates the state: on `send` and on `stop` it pops the queue
(`state["emails"].pop()`, raising on an empty list) and clears
`writer_messages`; on `rewrite` the state is untouched.  It does not
touch `trials` or `retrieved_documents`. -/
def must_rewrite (s : GraphState) : Option (String × GraphState) :=
  if s.sendable then
    if s.emails = [] then none
    else some ("send",
      { s with emails := s.emails.dropLast, writer_messages := [] })
  else if MAX_TRIALS ≤ s.trials then
    if s.emails = [] then none
    else some ("stop",
      { s with emails := s.emails.dropLast, writer_messages := [] })
  else some ("rewrite", s)

/-- `Nodes.create_draft_response` (bound to the graph node named
`send_email`): calls the gateway write inside try/except — the provider
result is only logged, never inspected — and unconditionally returns the
update `{"retrieved_documents": "", "trials": 0}`. -/
def create_draft_response (r : Except String String) (s : GraphState) :
    GraphState :=
  let _draftId := EmailTools_create_draft_reply r
  { s with retrieved_documents := "", trials := 0 }

/-- `Nodes.skip_unrelated_email`: pops the queue and returns the state
otherwise unchanged (no field is cleared). -/
def skip_unrelated_email (s : GraphState) : Option GraphState :=
  if s.emails = [] then none
  else some { s with emails := s.emails.dropLast }

/-- The graph nodes of `src/graph.py` (names as in `workflow.add_node`),
plus the END sentinel. -/
inductive Node
  | load_inbox_emails
  | is_email_inbox_empty
  | categorize_email
  | construct_rag_queries
  | retrieve_from_rag
  | email_writer
  | email_proofreader
  | send_email
  | skip_unrelated_email
  | done
  deriving DecidableEq, Repr

/-- External-collaborator calls a step performs, used to state temporal
claims about what the engine invokes. -/
inductive Event
  | fetchCall
  | classifierCall (body : String)
  | plannerCall (body : String)
  | ragCall (query : String)
  | drafterCall (trialsBefore : Nat)
  | verifierCall (draft : String)
  | createDraftCall (reply : String)
  deriving DecidableEq, Repr

/-- One step of the compiled workflow: run the node bound to `n`, then
follow its fixed or conditional edge (`src/graph.py`).  `none` models an
uncaught Python exception aborting the run.  The returned list holds the
external-collaborator calls the step performed. -/
def step (o : Oracles) (n : Node) (s : GraphState) :
    Option (Node × GraphState × List Event) :=
  match n with
  | .load_inbox_emails =>
      some (.is_email_inbox_empty, load_new_emails o s, [.fetchCall])
  | .is_email_inbox_empty =>
      let s₁ := is_email_inbox_empty s
      if check_new_emails s₁ = "empty" then some (.done, s₁, [])
      else some (.categorize_email, s₁, [])
  | .categorize_email =>
      match s.emails.getLast?, categorize_email o.classify s with
      | some current, some s₁ =>
          let r := route_email_based_on_category s₁
          let evs := [Event.classifierCall current.body]
          if r = "product related" then some (.construct_rag_queries, s₁, evs)
          else if r = "unrelated" then some (.skip_unrelated_email, s₁, evs)
          else some (.email_writer, s₁, evs)
      | _, _ => none
  | .construct_rag_queries =>
      match s.current_email, construct_rag_queries o.planQueries s with
      | some current, some s₁ =>
          some (.retrieve_from_rag, s₁, [Event.plannerCall current.body])
      | _, _ => none
  | .retrieve_from_rag =>
      some (.email_writer, retrieve_from_rag o.ragAnswer s,
            s.rag_queries.map Event.ragCall)
  | .email_writer =>
      match write_draft_email o.writeEmail s with
      | some s₁ => some (.email_proofreader, s₁, [Event.drafterCall s.trials])
      | none => none
  | .email_proofreader =>
      match verify_generated_email o.proofread s with
      | none => none
      | some s₁ =>
          match must_rewrite s₁ with
          | none => none
          | some (r, s₂) =>
              let evs := [Event.verifierCall s.generated_email]
              if r = "send" then some (.send_email, s₂, evs)
              else if r = "rewrite" then some (.email_writer, s₂, evs)
              else some (.categorize_email, s₂, evs)
  | .send_email =>
      some (.is_email_inbox_empty, create_draft_response o.createDraftResult s,
            [Event.createDraftCall s.generated_email])
  | .skip_unrelated_email =>
      match skip_unrelated_email s with
      | some s₁ => some (.is_email_inbox_empty, s₁, [])
      | none => none
  | .done => some (.done, s, [])

/-- Fuelled execution of the workflow, accumulating emitted events. -/
def runAux (o : Oracles) : Nat → Node → GraphState → List Event →
    Option (Node × GraphState × List Event)
  | 0, n, s, evs => some (n, s, evs)
  | fuel + 1, n, s, evs =>
      if n = Node.done then some (n, s, evs)
      else
        match step o n s with
        | none => none
        | some (n₁, s₁, evs₁) => runAux o fuel n₁ s₁ (evs ++ evs₁)

/-- Number of messages that entered processing (one classifier call per
message entering the pipeline). -/
def classifier_calls (evs : List Event) : Nat :=
  (evs.filter fun e =>
    match e with
    | .classifierCall _ => true
    | _ => false).length

/-- Calls C6 forbids for an unrelated message: drafter, verifier and
mailbox writes. -/
def is_draft_verify_or_write (e : Event) : Bool :=
  match e with
  | .drafterCall _ => true
  | .verifierCall _ => true
  | .createDraftCall _ => true
  | _ => false

/-- ASCII lowercasing of one character, as Python's `str.lower` acts on
the ASCII addresses the detector receives. -/
def lowerChar (c : Char) : Char :=
  match c with
  | 'A' => 'a' | 'B' => 'b' | 'C' => 'c' | 'D' => 'd' | 'E' => 'e'
  | 'F' => 'f' | 'G' => 'g' | 'H' => 'h' | 'I' => 'i' | 'J' => 'j'
  | 'K' => 'k' | 'L' => 'l' | 'M' => 'm' | 'N' => 'n' | 'O' => 'o'
  | 'P' => 'p' | 'Q' => 'q' | 'R' => 'r' | 'S' => 's' | 'T' => 't'
  | 'U' => 'u' | 'V' => 'v' | 'W' => 'w' | 'X' => 'x' | 'Y' => 'y'
  | 'Z' => 'z' | other => other

/-- `str.lower` over a character list. -/
def toLowerStr (l : List Char) : List Char := l.map lowerChar

/-- Python's `str.split(sep)`: `"".split(sep) = [""]`,
`"a@b".split("@") = ["a", "b"]`. -/
def splitOnChar (sep : Char) : List Char → List (List Char)
  | [] => [[]]
  | c :: t =>
      if c = sep then [] :: splitOnChar sep t
      else
        match splitOnChar sep t with
        | [] => [[c]]
        | h :: r => (c :: h) :: r

/-- Python's substring containment `needle in hay`. -/
def subList (needle : List Char) : List Char → Bool
  | [] => needle.isEmpty
  | c :: t => needle.isPrefixOf (c :: t) || subList needle t

/-- `EmailServiceType` enum of `src/nodes.py`. -/
inductive EmailServiceType
  | GMAIL
  | OUTLOOK
  deriving DecidableEq, Repr

/-- `EmailServiceDetector.detect_service`: lowercases the address, takes
`split('@')[1]` (index 1 of the split — `none` models the `IndexError`
raised when there is no `'@'`), then tests `'gmail.com' in domain`
first, the three Outlook domains next, and defaults to Gmail. -/
def detect_service (email_address : List Char) : Option EmailServiceType :=
  match (splitOnChar '@' (toLowerStr email_address)).get? 1 with
  | none => none
  | some email_domain =>
      if subList ("gmail.com".data) email_domain then some .GMAIL
      else if subList ("outlook.com".data) email_domain
           || subList ("hotmail.com".data) email_domain
           || subList ("live.com".data) email_domain then some .OUTLOOK
      else some .GMAIL

/-- A base oracle record: classifier labels everything
`feedback_or_complaint`, the proofreader never approves, provider calls
succeed. -/
def oBase : Oracles :=
  { fetchResult := .ok []
    classify := fun _ => "feedback_or_complaint"
    planQueries := fun _ => []
    ragAnswer := fun _ => ""
    writeEmail := fun _ _ => "d"
    proofread := fun _ _ => (false, "needs work")
    createDraftResult := .ok "draft-1" }

/-- Oracles for the two-message never-sendable run: the inbox holds two
messages and the proofreader rejects every draft. -/
def oC1 : Oracles := { oBase with fetchResult := .ok [⟨1, "b1"⟩, ⟨2, "b2"⟩] }

/-- Eleven workflow steps of the two-message never-sendable run: load,
inbox check, classify msg 2, three draft/verify rounds ending in the stop
route back to classify, classify msg 1, and one more draft. -/
def c1_run : Option (Node × GraphState × List Event) :=
  runAux oC1 11 .load_inbox_emails initial_state []

/-- A state at the verification router with one pending email and an
approving verdict. -/
def wC2 : GraphState :=
  { initial_state with emails := [⟨1, "b"⟩], sendable := true }

/-- A sendable one-email state for exercising the send branch of the
router. -/
def sC3 : GraphState :=
  { initial_state with emails := [⟨1, "b"⟩], sendable := true }

/-- Another sendable one-email state. -/
def wC3 : GraphState :=
  { initial_state with emails := [⟨1, "b"⟩], sendable := true }

/-- A mid-processing state with non-empty per-message fields, used to
observe what the skip path leaves behind. -/
def sC4 : GraphState :=
  { initial_state with
      emails := [⟨1, "b"⟩]
      trials := 2
      writer_messages := ["fb"]
      retrieved_documents := "doc" }

/-- Oracles whose classifier emits a label outside the three known
categories. -/
def oC5 : Oracles := { oBase with classify := fun _ => "spam_or_unknown" }

/-- A one-email state about to be classified. -/
def sC5 : GraphState := { initial_state with emails := [⟨1, "b"⟩] }

/-- A state carrying an unknown category label. -/
def wC5 : GraphState := { initial_state with email_category := "mystery" }

/-- Oracles whose classifier labels everything `unrelated`. -/
def oC6 : Oracles := { oBase with classify := fun _ => "unrelated" }

/-- A one-email state about to be classified as unrelated. -/
def sC6 : GraphState := { initial_state with emails := [⟨1, "b"⟩] }

/-- Oracles whose provider fetch raises. -/
def oC7 : Oracles := { oBase with fetchResult := .error "network down" }

/-- A state at the finalize node (draft generated, message current). -/
def sC8 : GraphState :=
  { initial_state with
      emails := [⟨1, "b"⟩]
      current_email := some ⟨1, "b"⟩
      generated_email := "g"
      retrieved_documents := "doc"
      trials := 2 }

/-- Oracles whose provider draft-write raises. -/
def oC8 : Oracles := { oBase with createDraftResult := .error "network down" }

/-- A two-email state with an approving verdict, for the stack-discipline
claim. -/
def wC9 : GraphState :=
  { initial_state with emails := [⟨1, "a"⟩, ⟨2, "b"⟩], sendable := true }

/-- An address whose domain contains both `gmail.com` and
`outlook.com`. -/
def addrC10 : List Char := "user@gmail.com.outlook.com".data

/-- An address with no `'@'`. -/
def addrNoAt : List Char := "plainaddress".data

/-- A plain Outlook address. -/
def addrOutlook : List Char := "user@outlook.com".data

theorem lowerChar_ne_at (c : Char) (h : c ≠ '@') : lowerChar c ≠ '@' := by
  unfold lowerChar
  split <;> first | decide | exact h

theorem at_not_mem_toLowerStr (a : List Char) (h : '@' ∉ a) :
    '@' ∉ toLowerStr a := by
  simp only [toLowerStr, List.mem_map]
  rintro ⟨c, hc, hlc⟩
  exact lowerChar_ne_at c (fun hce => h (hce ▸ hc)) hlc

theorem splitOnChar_of_not_mem (sep : Char) (l : List Char) (h : sep ∉ l) :
    splitOnChar sep l = [l] := by
  induction l with
  | nil => rfl
  | cons c t ih =>
      have hc : c ≠ sep := fun hce => h (hce ▸ List.mem_cons_self c t)
      have ht : sep ∉ t := fun hm => h (List.mem_cons_of_mem c hm)
      simp [splitOnChar, hc, ih ht]

theorem getLast?_dropLast_append (l : List Email) (a : Email)
    (h : l.getLast? = some a) : l.dropLast ++ [a] = l := by
  induction l with
  | nil => simp at h
  | cons c t ih =>
      cases t with
      | nil =>
          simp [List.getLast?] at h
          simp [h]
      | cons d u =>
          rw [List.getLast?_cons_cons] at h
          simpa using congrArg (List.cons c) (ih h)

theorem runAux_done (o : Oracles) (fuel : Nat) (s : GraphState)
    (evs : List Event) : runAux o fuel .done s evs = some (.done, s, evs) := by
  cases fuel <;> simp [runAux]

/-- C1 (code bug): in the two-message never-sendable run, after the stop
route returns control to Classify, `trials` is not reset; the drafter is
invoked for the next message while the counter already equals MAX_TRIALS
and the counter then reaches MAX_TRIALS + 1 = 4, violating the claimed
invariant `trials ∈ [0, MAX_TRIALS]`. -/
theorem drafter_called_at_max_trials :
    (c1_run.map fun p => p.1) = some Node.email_proofreader ∧
    (c1_run.map fun p => p.2.1.trials) = some (MAX_TRIALS + 1) ∧
    (c1_run.map fun p => p.2.2.contains (Event.drafterCall MAX_TRIALS)) =
      some true := by
  decide

/-- C2: with a poppable (non-empty) queue, the verification router
returns `send` exactly when `sendable` holds; otherwise `stop` exactly
when `trials` is at least MAX_TRIALS; otherwise `rewrite`. -/
theorem must_rewrite_route_spec (s : GraphState) (h : s.emails ≠ []) :
    (must_rewrite s).map Prod.fst =
      some (if s.sendable then "send"
            else if MAX_TRIALS ≤ s.trials then "stop" else "rewrite") := by
  by_cases hb : s.sendable <;> by_cases h3 : MAX_TRIALS ≤ s.trials <;>
    simp [must_rewrite, hb, h3, h]

/-- C2 witness: at a concrete sendable state the router answers `send`. -/
theorem must_rewrite_route_spec_witness :
    wC2.emails ≠ [] ∧ (must_rewrite wC2).map Prod.fst = some "send" :=
  ⟨by decide, by
    have h := must_rewrite_route_spec wC2 (by decide)
    rw [h]; decide⟩

/-- C3 counterexample: evaluating the verification route at a concrete
sendable state changes the state (the queue is popped), so the router is
not free of side effects on the processing state. -/
theorem must_rewrite_mutates_state :
    (must_rewrite sC3).map Prod.snd ≠ some sC3 := by decide

/-- C3 (amended): both routers are deterministic functions of the fields
they read — the category route of `email_category` alone, the
verification route's label of (`sendable`, `trials`) alone — but
`must_rewrite` is not state-preserving: it returns the state unchanged on
the rewrite branch and pops the queue and clears `writer_messages` on the
send and stop branches. -/
theorem route_functions_deterministic_and_effects (s t : GraphState)
    (hs : s.emails ≠ []) (ht : t.emails ≠ [])
    (hsend : s.sendable = t.sendable) (htr : s.trials = t.trials)
    (hcat : s.email_category = t.email_category) :
    route_email_based_on_category s = route_email_based_on_category t ∧
    (must_rewrite s).map Prod.fst = (must_rewrite t).map Prod.fst ∧
    (s.sendable = false → s.trials < MAX_TRIALS →
      must_rewrite s = some ("rewrite", s)) ∧
    ((s.sendable = true ∨ MAX_TRIALS ≤ s.trials) →
      (must_rewrite s).map Prod.snd =
        some { s with emails := s.emails.dropLast, writer_messages := [] }) := by
  refine ⟨?_, ?_, ?_, ?_⟩
  · simp only [route_email_based_on_category, hcat]
  · by_cases hb : s.sendable <;> by_cases h3 : MAX_TRIALS ≤ s.trials <;>
      simp [must_rewrite, hb, h3, hs, ht, ← hsend, ← htr]
  · intro hb h3
    simp [must_rewrite, hb, Nat.not_le.mpr h3]
  · rintro (hb | h3)
    · simp [must_rewrite, hb, hs]
    · by_cases hb : s.sendable
      · simp [must_rewrite, hb, hs]
      · simp [must_rewrite, hb, h3, hs]

/-- C3 witness: the amended statement applied at a concrete sendable
state: the route label is reproducible and the state effect is the
documented pop-and-clear. -/
theorem route_functions_deterministic_and_effects_witness :
    wC3.emails ≠ [] ∧
    (must_rewrite wC3).map Prod.snd =
      some { wC3 with emails := wC3.emails.dropLast, writer_messages := [] } :=
  ⟨by decide,
   (route_functions_deterministic_and_effects wC3 wC3 (by decide) (by decide)
      rfl rfl rfl).2.2.2 (Or.inl (by decide))⟩

/-- C4 counterexample: the skip path pops the queue but clears none of
the per-message fields — `trials`, `writer_messages` and
`retrieved_documents` survive the pop. -/
theorem skip_pops_but_clears_nothing :
    skip_unrelated_email sC4 = some { sC4 with emails := [] } ∧
    (skip_unrelated_email sC4).map GraphState.trials ≠ some 0 ∧
    (skip_unrelated_email sC4).map GraphState.writer_messages ≠ some [] ∧
    (skip_unrelated_email sC4).map GraphState.retrieved_documents ≠ some "" := by
  decide

/-- C4 (amended): the queue is popped only by `skip_unrelated_email` and
by the send/stop branches of `must_rewrite`, but the three paths clear
different things: skip clears nothing; stop clears only
`writer_messages`; the send path clears `writer_messages` in the router
and `trials`/`retrieved_documents` in the finalize node (which itself
does not pop).  All other nodes leave the queue unchanged. -/
theorem queue_mutation_paths (o : Oracles) (s : GraphState)
    (h : s.emails ≠ []) :
    skip_unrelated_email s = some { s with emails := s.emails.dropLast } ∧
    (s.sendable = false → MAX_TRIALS ≤ s.trials →
      must_rewrite s =
        some ("stop",
          { s with emails := s.emails.dropLast, writer_messages := [] })) ∧
    (s.sendable = true →
      must_rewrite s =
        some ("send",
          { s with emails := s.emails.dropLast, writer_messages := [] })) ∧
    create_draft_response o.createDraftResult s =
      { s with retrieved_documents := "", trials := 0 } ∧
    (∀ s₁, categorize_email o.classify s = some s₁ → s₁.emails = s.emails) ∧
    (∀ s₁, construct_rag_queries o.planQueries s = some s₁ →
      s₁.emails = s.emails) ∧
    (retrieve_from_rag o.ragAnswer s).emails = s.emails ∧
    (∀ s₁, write_draft_email o.writeEmail s = some s₁ →
      s₁.emails = s.emails) ∧
    (∀ s₁, verify_generated_email o.proofread s = some s₁ →
      s₁.emails = s.emails) := by
  refine ⟨?_, ?_, ?_, rfl, ?_, ?_, rfl, ?_, ?_⟩
  · simp [skip_unrelated_email, h]
  · intro hb h3
    simp [must_rewrite, hb, h3, h]
  · intro hb
    simp [must_rewrite, hb, h]
  · intro s₁ h₁
    unfold categorize_email at h₁
    cases hg : s.emails.getLast? with
    | none => rw [hg] at h₁; exact absurd h₁ (by simp)
    | some cur =>
        rw [hg] at h₁
        injection h₁ with h₂
        rw [← h₂]
  · intro s₁ h₁
    unfold construct_rag_queries at h₁
    cases hc : s.current_email with
    | none => rw [hc] at h₁; exact absurd h₁ (by simp)
    | some cur =>
        rw [hc] at h₁
        injection h₁ with h₂
        rw [← h₂]
  · intro s₁ h₁
    unfold write_draft_email at h₁
    cases hc : s.current_email with
    | none => rw [hc] at h₁; exact absurd h₁ (by simp)
    | some cur =>
        rw [hc] at h₁
        injection h₁ with h₂
        rw [← h₂]
  · intro s₁ h₁
    unfold verify_generated_email at h₁
    cases hc : s.current_email with
    | none => rw [hc] at h₁; exact absurd h₁ (by simp)
    | some cur =>
        rw [hc] at h₁
        injection h₁ with h₂
        rw [← h₂]

/-- C4 witness: the amended statement applied at a concrete one-email
state: skip pops the last element and the finalize node clears `trials`
and `retrieved_documents`. -/
theorem queue_mutation_paths_witness :
    sC4.emails ≠ [] ∧
    skip_unrelated_email sC4 =
      some { sC4 with emails := sC4.emails.dropLast } ∧
    create_draft_response oBase.createDraftResult sC4 =
      { sC4 with retrieved_documents := "", trials := 0 } :=
  ⟨by decide,
   (queue_mutation_paths oBase sC4 (by decide)).1,
   (queue_mutation_paths oBase sC4 (by decide)).2.2.2.1⟩

/-- C5 counterexample: a classifier label outside the three known
categories is routed silently — the category route returns the routable
label `"not product related"` and the workflow proceeds to the writer
node instead of failing fast. -/
theorem unknown_category_routes_to_writer :
    route_email_based_on_category
      { sC5 with email_category := "spam_or_unknown" } = "not product related" ∧
    step oC5 .categorize_email sC5 =
      some (.email_writer,
        { sC5 with
            email_category := "spam_or_unknown"
            current_email := some ⟨1, "b"⟩ },
        [.classifierCall "b"]) := by
  decide

/-- C5 (amended): an unknown or unset category does not fail fast; every
category other than `product_enquiry` and `unrelated` silently defaults
to the `"not product related"` branch (the writer path). -/
theorem unknown_category_defaults_to_not_product (s : GraphState)
    (h1 : s.email_category ≠ "product_enquiry")
    (h2 : s.email_category ≠ "unrelated") :
    route_email_based_on_category s = "not product related" := by
  simp [route_email_based_on_category, h1, h2]

/-- C5 witness: the amended statement at a concrete unknown category. -/
theorem unknown_category_defaults_witness :
    wC5.email_category ≠ "product_enquiry" ∧
    wC5.email_category ≠ "unrelated" ∧
    route_email_based_on_category wC5 = "not product related" :=
  ⟨by decide, by decide,
   unknown_category_defaults_to_not_product wC5 (by decide) (by decide)⟩

/-- C6: when the classifier labels the current (last) message
`unrelated`, the conditional edge out of Classify goes to the skip node,
the skip node pops that very message and its fixed edge returns to the
inbox check; across both steps the only external call is the classifier
itself — no drafter, verifier or mailbox-write call occurs for that
message. -/
theorem unrelated_never_drafted_or_written (o : Oracles) (s : GraphState)
    (cur : Email) (hlast : s.emails.getLast? = some cur)
    (hcat : o.classify cur.body = "unrelated") :
    ∃ s₁,
      step o .categorize_email s =
        some (.skip_unrelated_email, s₁, [.classifierCall cur.body]) ∧
      step o .skip_unrelated_email s₁ =
        some (.is_email_inbox_empty, { s₁ with emails := s₁.emails.dropLast },
              []) ∧
      s₁.emails = s.emails ∧
      s₁.emails.dropLast ++ [cur] = s.emails ∧
      (([Event.classifierCall cur.body] ++ ([] : List Event)).all
        fun e => !(is_draft_verify_or_write e)) = true := by
  have hne : s.emails ≠ [] := by
    intro he
    rw [he] at hlast
    exact absurd hlast (by simp)
  refine Exists.intro
    { s with email_category := o.classify cur.body, current_email := some cur }
    ⟨?_, ?_, rfl, ?_, rfl⟩
  · simp [step, categorize_email, hlast, hcat, route_email_based_on_category]
  · simp [step, skip_unrelated_email, hne]
  · exact getLast?_dropLast_append s.emails cur hlast

/-- C6 witness: a concrete unrelated message goes through skip then the
inbox check, with only the classifier invoked. -/
theorem unrelated_never_drafted_witness :
    sC6.emails.getLast? = some ⟨1, "b"⟩ ∧
    oC6.classify (Email.mk 1 "b").body = "unrelated" ∧
    (∃ s₁,
      step oC6 .categorize_email sC6 =
        some (.skip_unrelated_email, s₁,
              [.classifierCall (Email.mk 1 "b").body]) ∧
      step oC6 .skip_unrelated_email s₁ =
        some (.is_email_inbox_empty, { s₁ with emails := s₁.emails.dropLast },
              []) ∧
      s₁.emails = sC6.emails ∧
      s₁.emails.dropLast ++ [Email.mk 1 "b"] = sC6.emails ∧
      (([Event.classifierCall (Email.mk 1 "b").body] ++ ([] : List Event)).all
        fun e => !(is_draft_verify_or_write e)) = true) :=
  ⟨by decide, rfl,
   unrelated_never_drafted_or_written oC6 sC6 (Email.mk 1 "b") (by decide) rfl⟩

/-- C7: if the provider fetch fails, LoadInbox degrades to an empty
queue: within two steps the run reaches END with `emails = []`, the only
external call being the fetch itself, and zero messages entered
processing. -/
theorem fetch_error_empty_run (o : Oracles) (s : GraphState) (msg : String)
    (fuel : Nat) (h : o.fetchResult = .error msg) :
    runAux o (fuel + 2) .load_inbox_emails s [] =
      some (.done, { s with emails := [] }, [.fetchCall]) ∧
    classifier_calls [.fetchCall] = 0 := by
  have h1 : load_new_emails o s = { s with emails := ([] : List Email) } := by
    simp [load_new_emails, fetch_unanswered_emails, h]
  refine ⟨?_, rfl⟩
  simp [runAux, step, h1, is_email_inbox_empty, check_new_emails, runAux_done]

/-- C7 witness: a concrete failed fetch completes the run immediately
with an empty queue and zero processed messages. -/
theorem fetch_error_empty_run_witness :
    oC7.fetchResult = .error "network down" ∧
    runAux oC7 5 .load_inbox_emails initial_state [] =
      some (.done, { initial_state with emails := [] }, [.fetchCall]) ∧
    classifier_calls [.fetchCall] = 0 :=
  ⟨rfl,
   (fetch_error_empty_run oC7 initial_state "network down" 3 rfl).1,
   (fetch_error_empty_run oC7 initial_state "network down" 3 rfl).2⟩

/-- C8 counterexample: at a concrete state, a failing provider
draft-write produces no error for the caller — the unified tool returns
`none`, the finalize node's state update is identical to the success
case, and the workflow step proceeds to the inbox check exactly as on
success. -/
theorem draft_write_failure_swallowed :
    EmailTools_create_draft_reply (.error "network down") = none ∧
    create_draft_response (.error "network down") sC8 =
      create_draft_response (.ok "draft-1") sC8 ∧
    step oC8 .send_email sC8 =
      some (.is_email_inbox_empty,
            { sC8 with retrieved_documents := "", trials := 0 },
            [.createDraftCall "g"]) := by
  decide

/-- C8 (amended): create-draft-reply failures are caught and swallowed:
the unified tool converts any provider error into `None`, and the
finalize node returns the same update — clear `retrieved_documents`,
reset `trials` — no matter whether the provider call succeeded or
failed; no error reaches the engine's caller. -/
theorem create_draft_errors_not_propagated (s : GraphState)
    (r₁ r₂ : Except String String) (e : String) :
    EmailTools_create_draft_reply (Except.error e) = none ∧
    create_draft_response r₁ s =
      { s with retrieved_documents := "", trials := 0 } ∧
    create_draft_response r₁ s = create_draft_response r₂ s :=
  ⟨rfl, rfl, rfl⟩

theorem wC9_ne : wC9.emails ≠ [] := by decide

/-- C9: on a non-empty queue, Classify selects the LAST element of
`pending` as the current message, and every pop (skip, and the send/stop
branches of the verification router) removes that same end of the queue:
`dropLast` together with `getLast` reassemble the original queue. -/
theorem last_in_first_out (o : Oracles) (s : GraphState)
    (h : s.emails ≠ []) :
    (categorize_email o.classify s).map (fun s₁ => s₁.current_email) =
      some (some (s.emails.getLast h)) ∧
    (skip_unrelated_email s).map GraphState.emails =
      some s.emails.dropLast ∧
    ((s.sendable = true ∨ MAX_TRIALS ≤ s.trials) →
      (must_rewrite s).map (fun p => p.2.emails) = some s.emails.dropLast) ∧
    s.emails.dropLast ++ [s.emails.getLast h] = s.emails := by
  have hlast : s.emails.getLast? = some (s.emails.getLast h) :=
    List.getLast?_eq_getLast s.emails h
  refine ⟨?_, ?_, ?_, ?_⟩
  · simp [categorize_email, hlast]
  · simp [skip_unrelated_email, h]
  · rintro (hb | h3)
    · simp [must_rewrite, hb, h]
    · by_cases hb : s.sendable
      · simp [must_rewrite, hb, h]
      · simp [must_rewrite, hb, h3, h]
  · exact getLast?_dropLast_append s.emails (s.emails.getLast h) hlast

/-- C9 witness: at a concrete two-email state, Classify picks the second
(last) email and the pops remove that same end. -/
theorem last_in_first_out_witness :
    wC9.emails ≠ [] ∧
    (categorize_email oBase.classify wC9).map (fun s₁ => s₁.current_email) =
      some (some (wC9.emails.getLast wC9_ne)) ∧
    (skip_unrelated_email wC9).map GraphState.emails =
      some wC9.emails.dropLast :=
  ⟨wC9_ne, (last_in_first_out oBase wC9 wC9_ne).1,
   (last_in_first_out oBase wC9 wC9_ne).2.1⟩

/-- C10 counterexample: an address that contains `'@'` and whose domain
part contains `outlook.com` is nevertheless detected as GMAIL, because
the code tests `gmail.com` containment first. -/
theorem gmail_priority_counterexample :
    '@' ∈ addrC10 ∧
    (splitOnChar '@' (toLowerStr addrC10)).get? 1 =
      some ("gmail.com.outlook.com".data) ∧
    subList ("outlook.com".data) ("gmail.com.outlook.com".data) = true ∧
    detect_service addrC10 = some EmailServiceType.GMAIL ∧
    some EmailServiceType.GMAIL ≠ some EmailServiceType.OUTLOOK := by
  decide

/-- C10 (amended): an address with no `'@'` makes the detector fail with
an index error (`none`); for an address with a domain part (the segment
between the first and second `'@'` of the lowercased address), the
detector returns GMAIL whenever the domain contains `gmail.com`,
otherwise OUTLOOK when it contains `outlook.com`, `hotmail.com` or
`live.com`, and GMAIL in all remaining cases. -/
theorem detect_service_behavior (a d : List Char) :
    ('@' ∉ a → detect_service a = none) ∧
    ((splitOnChar '@' (toLowerStr a)).get? 1 = some d →
      detect_service a =
        some (if subList ("gmail.com".data) d then EmailServiceType.GMAIL
              else if subList ("outlook.com".data) d
                   || subList ("hotmail.com".data) d
                   || subList ("live.com".data) d then EmailServiceType.OUTLOOK
              else EmailServiceType.GMAIL)) := by
  constructor
  · intro h
    have h2 : '@' ∉ toLowerStr a := at_not_mem_toLowerStr a h
    unfold detect_service
    rw [splitOnChar_of_not_mem '@' (toLowerStr a) h2]
    rfl
  · intro hd
    unfold detect_service
    rw [hd]
    by_cases h1 : subList ("gmail.com".data) d = true
    · simp [h1]
    · by_cases h2 : (subList ("outlook.com".data) d
          || subList ("hotmail.com".data) d
          || subList ("live.com".data) d) = true
      · simp [h1, h2]
      · simp [h1, h2]

/-- C10 witness: the amended statement at a concrete address without
`'@'` and at a plain Outlook address. -/
theorem detect_service_behavior_witness :
    detect_service addrNoAt = none ∧
    detect_service addrOutlook = some EmailServiceType.OUTLOOK :=
  ⟨(detect_service_behavior addrNoAt []).1 (by decide),
   by
     have h := (detect_service_behavior addrOutlook ("outlook.com".data)).2
       (by decide)
     rw [h]; decide⟩
